import Mathlib

/-!
Verification of the projection-and-ratio engine of `streamlit_dashboard.py`.

The script loads a table of yearly financial records, extracts a two-point
compound annual growth rate per column up to the cutoff year 2023, projects
each column to 2025, applies three scenario adjustments (demand outlook on
revenue and COGS, an inventory budget cap followed by an order-frequency
multiplier), recomputes balance-sheet aggregates, and derives four ratios.

The embedding below follows the source line by line: rows of the loaded
table become `Row`, the per-column loop becomes a function over the `Field`
enumeration, pandas row selection (`.values[0]`) becomes `List.find?`, and
the `np.nan` sentinel returned for a zero denominator becomes `none`.
Floating-point numbers are modelled as real numbers.
-/

namespace Dashboard

/-- The required financial columns of the loaded table, except `Year`
(`required_cols[1:]` in the source). -/
inductive Field where
  | Revenue
  | COGS
  | CurrentAssets
  | CurrentLiabilities
  | Inventory
  | Cash
  | AccountsReceivable
  | NetIncome
  | TotalAssets
deriving DecidableEq

/-- One row of the loaded table: a fiscal year and a value per column. -/
structure Row where
  year : ℤ
  val : Field → ℝ

/-- Rows at or before the cutoff year 2023 (`hist = df[df['Year'] <= 2023]`). -/
def hist (df : List Row) : List Row :=
  df.filter (fun r => decide (r.year ≤ 2023))

/-- The earliest year of the filtered table (`start_year = hist['Year'].min()`). -/
def start_year (df : List Row) : Option ℤ :=
  ((hist df).map Row.year).min?

/-- The latest year of the filtered table (`end_year = hist['Year'].max()`). -/
def end_year (df : List Row) : Option ℤ :=
  ((hist df).map Row.year).max?

/-- The first row of a table carrying a given year
(`.loc[table['Year'] == y, col].values[0]` keeps the first match). -/
def rowAt (l : List Row) (y : ℤ) : Option Row :=
  l.find? (fun r => r.year == y)

/-- The per-column growth-rate arithmetic of line 55 of the source:
`(end_val / start_val) ** (1/yrs) - 1 if start_val > 0 else 0.0`.
The exponent is a real power (`Real.rpow`). -/
noncomputable def cagrField (start_val end_val : ℝ) (yrs : ℤ) : ℝ :=
  if start_val > 0 then (end_val / start_val) ^ ((1 : ℝ) / (yrs : ℝ)) - 1 else 0

/-- The growth rate the source computes for one column: select the earliest
and latest rows of the filtered table and apply `cagrField` (lines 47-55). -/
noncomputable def cagr (df : List Row) (f : Field) : Option ℝ :=
  match start_year df, end_year df with
  | some sy, some ey =>
    match rowAt (hist df) sy, rowAt (hist df) ey with
    | some s, some e => some (cagrField (s.val f) (e.val f) (ey - sy))
    | _, _ => none
  | _, _ => none

/-- The baseline 2025 projection of one column (lines 57-63 of the source):
`df.loc[df['Year'] == end_year, col].values[0] * ((1 + gr) ** (2025 - end_year))`.
The end row is looked up in the unfiltered table, as in the source. -/
noncomputable def base_proj (df : List Row) (f : Field) : Option ℝ :=
  match end_year df, cagr df f with
  | some ey, some gr =>
    match rowAt df ey with
    | some e => some (e.val f * (1 + gr) ^ (2025 - ey))
    | none => none
  | _, _ => none

/-- The ordering-cadence choices of the sidebar. -/
inductive OrderFreq where
  | Weekly
  | BiWeekly
  | Monthly
deriving DecidableEq

/-- The demand-outlook choices of the sidebar. -/
inductive Outlook where
  | Pessimistic
  | Baseline
  | Optimistic
deriving DecidableEq

/-- `freq_map = {"Weekly": 0.9, "Bi-weekly": 1.0, "Monthly": 1.1}` (line 73). -/
noncomputable def freq_map : OrderFreq → ℝ
  | .Weekly => 0.9
  | .BiWeekly => 1.0
  | .Monthly => 1.1

/-- `outlook_factor = {...: 0.9, ...: 1.0, ...: 1.1}` (line 66). -/
noncomputable def outlook_factor : Outlook → ℝ
  | .Pessimistic => 0.9
  | .Baseline => 1.0
  | .Optimistic => 1.1

/-- The three sidebar inputs of one run. -/
structure Scenario where
  order_freq : OrderFreq
  budget : ℝ
  demand_outlook : Outlook

/-- `adj_revenue = base_proj['Revenue'] * outlook_factor` (line 67).
`bp` stands for the `base_proj` dictionary of projected column values. -/
noncomputable def adj_revenue (bp : Field → ℝ) (s : Scenario) : ℝ :=
  bp .Revenue * outlook_factor s.demand_outlook

/-- `adj_cogs = base_proj['COGS'] * outlook_factor` (line 68). -/
noncomputable def adj_cogs (bp : Field → ℝ) (s : Scenario) : ℝ :=
  bp .COGS * outlook_factor s.demand_outlook

/-- Lines 71-74 of the source: `adj_inventory = min(inv_base, budget)` and
then `adj_inventory *= freq_map[order_freq]` - the cap is applied first. -/
noncomputable def adj_inventory (bp : Field → ℝ) (s : Scenario) : ℝ :=
  min (bp .Inventory) s.budget * freq_map s.order_freq

/-- `adj_current_assets = base_proj['Cash'] + base_proj['Accounts Receivable']
+ adj_inventory` (line 77). -/
noncomputable def adj_current_assets (bp : Field → ℝ) (s : Scenario) : ℝ :=
  bp .Cash + bp .AccountsReceivable + adj_inventory bp s

/-- `adj_current_liabilities = base_proj['Current Liabilities']` (line 78). -/
noncomputable def adj_current_liabilities (bp : Field → ℝ) : ℝ :=
  bp .CurrentLiabilities

/-- `adj_working_capital = adj_current_assets - adj_current_liabilities`
(line 79). -/
noncomputable def adj_working_capital (bp : Field → ℝ) (s : Scenario) : ℝ :=
  adj_current_assets bp s - adj_current_liabilities bp

/-- `adj_quick_assets = adj_current_assets - adj_inventory` (line 80). -/
noncomputable def adj_quick_assets (bp : Field → ℝ) (s : Scenario) : ℝ :=
  adj_current_assets bp s - adj_inventory bp s

/-- `adj_total_assets = base_proj['Total Assets']` (line 81). -/
noncomputable def adj_total_assets (bp : Field → ℝ) : ℝ :=
  bp .TotalAssets

/-- `adj_net_income = base_proj['Net Income'] * (adj_revenue /
base_proj['Revenue'])` (line 82). -/
noncomputable def adj_net_income (bp : Field → ℝ) (s : Scenario) : ℝ :=
  bp .NetIncome * (adj_revenue bp s / bp .Revenue)

/-- The four ratios of one scenario; `none` models the `np.nan` sentinel the
source returns when a denominator is zero. -/
structure RatioSet where
  cr : Option ℝ
  qr : Option ℝ
  wcr : Option ℝ
  npm : Option ℝ

/-- `compute_ratios` (lines 85-90): each ratio is guarded by Python
truthiness of its denominator (`if cl`, `if ta`, `if rev`), which for a
number means it is nonzero. -/
noncomputable def compute_ratios (ca cl inv ni rev ta : ℝ) : RatioSet where
  cr := if cl ≠ 0 then some (ca / cl) else none
  qr := if cl ≠ 0 then some ((ca - inv) / cl) else none
  wcr := if ta ≠ 0 then some ((ca - cl) / ta) else none
  npm := if rev ≠ 0 then some (ni / rev) else none

/-- The baseline ratio row (lines 93-96): `compute_ratios` applied to the
projected column values. -/
noncomputable def base_ratios (bp : Field → ℝ) : RatioSet :=
  compute_ratios (bp .CurrentAssets) (bp .CurrentLiabilities) (bp .Inventory)
    (bp .NetIncome) (bp .Revenue) (bp .TotalAssets)

/-- The adjusted ratio row (lines 97-100): `compute_ratios` applied to the
scenario-adjusted figures. -/
noncomputable def adj_ratios (bp : Field → ℝ) (s : Scenario) : RatioSet :=
  compute_ratios (adj_current_assets bp s) (adj_current_liabilities bp)
    (adj_inventory bp s) (adj_net_income bp s) (adj_revenue bp s)
    (adj_total_assets bp)

/-- The `Base Case` current-assets entry of `result_df` (line 108): taken
directly from the projected `Current Assets` column. -/
noncomputable def base_row_current_assets (bp : Field → ℝ) : ℝ :=
  bp .CurrentAssets

/-- The `Base Case` working-capital entry of `result_df` (line 109). -/
noncomputable def base_row_working_capital (bp : Field → ℝ) : ℝ :=
  bp .CurrentAssets - bp .CurrentLiabilities

/-- The `Base Case` quick-assets entry of `result_df` (line 110). -/
noncomputable def base_row_quick_assets (bp : Field → ℝ) : ℝ :=
  bp .CurrentAssets - bp .Inventory

/-- Modelled from the spec: section 4.4's shared Balance Reconciler formula
`currentAssets = cash + accountsReceivable + inventory`, stated so the claim
that both scenarios flow through one formula can be compared with the code. -/
def recon_current_assets (cash ar inv : ℝ) : ℝ :=
  cash + ar + inv

/-- C1: the Scenario Adjuster caps projected inventory at the budget first
and multiplies by the order-frequency factor second; with baseline inventory
150000, budget 100000 and Monthly frequency the result is 110000, not the
100000 that capping after scaling would give. -/
theorem adj_inventory_caps_before_scaling :
    (∀ (bp : Field → ℝ) (s : Scenario),
        adj_inventory bp s = min (bp .Inventory) s.budget * freq_map s.order_freq)
    ∧ adj_inventory (fun _ => 150000) ⟨OrderFreq.Monthly, 100000, Outlook.Baseline⟩ = 110000
    ∧ adj_inventory (fun _ => 150000) ⟨OrderFreq.Monthly, 100000, Outlook.Baseline⟩ ≠ 100000
    ∧ min ((150000 : ℝ) * freq_map OrderFreq.Monthly) 100000 = 100000 := by
  refine ⟨fun bp s => rfl, ?_, ?_, ?_⟩
  · show min (150000 : ℝ) 100000 * freq_map OrderFreq.Monthly = 110000
    rw [min_eq_right (by norm_num : (100000 : ℝ) ≤ 150000)]
    norm_num [freq_map]
  · show min (150000 : ℝ) 100000 * freq_map OrderFreq.Monthly ≠ 100000
    rw [min_eq_right (by norm_num : (100000 : ℝ) ≤ 150000)]
    norm_num [freq_map]
  · rw [show (150000 : ℝ) * freq_map OrderFreq.Monthly = 165000 by norm_num [freq_map]]
    rw [min_eq_right (by norm_num : (100000 : ℝ) ≤ 165000)]

/-- A two-year history in which the `Current Assets` column doubles while
cash, receivables and inventory stay flat; its projected `Current Assets`
then differs from the sum of its projected components. -/
noncomputable def rowY22 : Row :=
  ⟨2022, fun f => match f with | .CurrentAssets => 1000 | _ => 100⟩

/-- The 2023 row of the two-year history: `Current Assets` 2000, every
other column still 100. -/
noncomputable def rowY23 : Row :=
  ⟨2023, fun f => match f with | .CurrentAssets => 2000 | _ => 100⟩

/-- The two-year table used to compare the baseline row with the spec's
shared reconciler formula. -/
noncomputable def dfC2 : List Row := [rowY22, rowY23]

/-- C2 counterexample: on `dfC2` the baseline `Current Assets` figure shown
by the dashboard is the independently projected column (8000), not the
reconciler formula applied to baseline cash, receivables and inventory
(100 + 100 + 100): the baseline row is not the degenerate case of the
shared formula. -/
theorem base_row_departs_from_shared_formula :
    base_proj dfC2 Field.CurrentAssets = some 8000
    ∧ base_proj dfC2 Field.Cash = some 100
    ∧ base_proj dfC2 Field.AccountsReceivable = some 100
    ∧ base_proj dfC2 Field.Inventory = some 100
    ∧ some (8000 : ℝ) ≠ some (recon_current_assets 100 100 100) := by
  have hflat : cagrField 100 100 1 = 0 := by
    unfold cagrField
    rw [if_pos (by norm_num : (100 : ℝ) > 0)]
    rw [show ((100 : ℝ) / 100) = 1 by norm_num, Real.one_rpow]
    norm_num
  have hca : cagrField 1000 2000 1 = 1 := by
    unfold cagrField
    rw [if_pos (by norm_num : (1000 : ℝ) > 0)]
    rw [show ((1 : ℝ) / ((1 : ℤ) : ℝ)) = 1 by norm_num, Real.rpow_one]
    norm_num
  refine ⟨?_, ?_, ?_, ?_, ?_⟩
  · rw [show base_proj dfC2 Field.CurrentAssets
        = some (2000 * (1 + cagrField 1000 2000 1) ^ ((2 : ℤ))) from rfl, hca]
    norm_num
  · rw [show base_proj dfC2 Field.Cash
        = some (100 * (1 + cagrField 100 100 1) ^ ((2 : ℤ))) from rfl, hflat]
    norm_num
  · rw [show base_proj dfC2 Field.AccountsReceivable
        = some (100 * (1 + cagrField 100 100 1) ^ ((2 : ℤ))) from rfl, hflat]
    norm_num
  · rw [show base_proj dfC2 Field.Inventory
        = some (100 * (1 + cagrField 100 100 1) ^ ((2 : ℤ))) from rfl, hflat]
    norm_num
  · simp only [recon_current_assets, ne_eq, Option.some.injEq]
    norm_num

/-- C2 amended: the adjusted figures do follow the shared reconciler formula
(current assets are baseline cash plus baseline receivables plus adjusted
inventory, working capital and quick assets are derived from them), and the
baseline row satisfies the working-capital and quick-assets formulas over
the projected `Current Assets` column; the baseline row agrees with the
shared current-assets formula only when that projected column happens to
equal projected cash plus receivables plus inventory. -/
theorem reconciler_amended :
    (∀ (bp : Field → ℝ) (s : Scenario),
        adj_current_assets bp s
          = recon_current_assets (bp .Cash) (bp .AccountsReceivable) (adj_inventory bp s)
        ∧ adj_working_capital bp s = adj_current_assets bp s - bp .CurrentLiabilities
        ∧ adj_quick_assets bp s = adj_current_assets bp s - adj_inventory bp s)
    ∧ (∀ bp : Field → ℝ,
        base_row_working_capital bp = base_row_current_assets bp - bp .CurrentLiabilities
        ∧ base_row_quick_assets bp = base_row_current_assets bp - bp .Inventory
        ∧ (bp .CurrentAssets = bp .Cash + bp .AccountsReceivable + bp .Inventory →
            base_row_current_assets bp
              = recon_current_assets (bp .Cash) (bp .AccountsReceivable) (bp .Inventory))) := by
  refine ⟨fun bp s => ⟨rfl, rfl, rfl⟩, fun bp => ⟨rfl, rfl, fun h => h⟩⟩

/-- C5: each ratio is the stated quotient when its own denominator is
nonzero and the `none` sentinel (never a number) when that denominator is
zero, independently of the other denominators. -/
theorem compute_ratios_denominator_guards (ca cl inv ni rev ta : ℝ) :
    ((cl ≠ 0 → (compute_ratios ca cl inv ni rev ta).cr = some (ca / cl))
      ∧ (cl = 0 → (compute_ratios ca cl inv ni rev ta).cr = none))
    ∧ ((cl ≠ 0 → (compute_ratios ca cl inv ni rev ta).qr = some ((ca - inv) / cl))
      ∧ (cl = 0 → (compute_ratios ca cl inv ni rev ta).qr = none))
    ∧ ((ta ≠ 0 → (compute_ratios ca cl inv ni rev ta).wcr = some ((ca - cl) / ta))
      ∧ (ta = 0 → (compute_ratios ca cl inv ni rev ta).wcr = none))
    ∧ ((rev ≠ 0 → (compute_ratios ca cl inv ni rev ta).npm = some (ni / rev))
      ∧ (rev = 0 → (compute_ratios ca cl inv ni rev ta).npm = none)) := by
  refine ⟨⟨?_, ?_⟩, ⟨?_, ?_⟩, ⟨?_, ?_⟩, ⟨?_, ?_⟩⟩ <;> intro h <;>
    simp [compute_ratios, h]

/-- C7: no scenario knob moves current liabilities or total assets off their
baseline projections, and cash and receivables enter the adjusted current
assets at their baseline values, so the non-inventory part of adjusted
current assets is the same under every scenario. -/
theorem scenario_knobs_leave_fixed_fields (bp : Field → ℝ) (s : Scenario) :
    adj_current_liabilities bp = bp .CurrentLiabilities
    ∧ adj_total_assets bp = bp .TotalAssets
    ∧ adj_current_assets bp s = bp .Cash + bp .AccountsReceivable + adj_inventory bp s
    ∧ (∀ t : Scenario,
        adj_current_assets bp s - adj_inventory bp s
          = adj_current_assets bp t - adj_inventory bp t) := by
  refine ⟨rfl, rfl, rfl, fun t => ?_⟩
  unfold adj_current_assets
  ring

/-- C9: whenever the baseline projected revenue is nonzero, the adjusted net
profit margin equals the baseline one - net income is scaled by exactly the
revenue ratio, so no scenario knob moves the margin. -/
theorem npm_scenario_invariant (bp : Field → ℝ) (s : Scenario)
    (h : bp .Revenue ≠ 0) :
    (adj_ratios bp s).npm = (base_ratios bp).npm
    ∧ (base_ratios bp).npm = some (bp .NetIncome / bp .Revenue) := by
  have hk : outlook_factor s.demand_outlook ≠ 0 := by
    cases s.demand_outlook <;> norm_num [outlook_factor]
  have hrev : adj_revenue bp s ≠ 0 := by
    unfold adj_revenue
    exact mul_ne_zero h hk
  have h2 : (base_ratios bp).npm = some (bp .NetIncome / bp .Revenue) := by
    simp [base_ratios, compute_ratios, h]
  refine ⟨?_, h2⟩
  rw [h2]
  simp only [adj_ratios, compute_ratios]
  rw [if_pos hrev]
  congr 1
  unfold adj_net_income adj_revenue
  field_simp
  ring

/-- C9 witness: at the all-ones baseline and the Weekly, zero-budget,
Pessimistic scenario the hypothesis holds and the margins coincide. -/
theorem npm_scenario_invariant_witness :
    ((fun _ => (1 : ℝ)) Field.Revenue ≠ 0)
    ∧ ((adj_ratios (fun _ => 1) ⟨OrderFreq.Weekly, 0, Outlook.Pessimistic⟩).npm
        = (base_ratios (fun _ => 1)).npm
      ∧ (base_ratios (fun _ => (1 : ℝ))).npm = some ((1 : ℝ) / 1)) :=
  ⟨by norm_num,
    npm_scenario_invariant (fun _ => 1) ⟨OrderFreq.Weekly, 0, Outlook.Pessimistic⟩
      (by norm_num)⟩

/-- C10: the adjusted quick assets are exactly baseline cash plus baseline
receivables - the adjusted inventory cancels - so neither the budget cap nor
the order frequency nor the demand outlook affects them, and with nonzero
liabilities the adjusted quick ratio is their quotient by the baseline
liabilities. -/
theorem adj_quick_assets_scenario_invariant (bp : Field → ℝ) (s : Scenario) :
    adj_quick_assets bp s = bp .Cash + bp .AccountsReceivable
    ∧ (bp .CurrentLiabilities ≠ 0 →
        (adj_ratios bp s).qr
          = some ((bp .Cash + bp .AccountsReceivable) / bp .CurrentLiabilities)) := by
  have hq : adj_current_assets bp s - adj_inventory bp s
      = bp .Cash + bp .AccountsReceivable := by
    unfold adj_current_assets
    ring
  refine ⟨?_, fun h => ?_⟩
  · unfold adj_quick_assets
    exact hq
  · simp [adj_ratios, compute_ratios, adj_current_liabilities, h, hq]

/-- C3: for every column, the Growth Rate Extractor applied to the rows at
or before the cutoff, with `s` the minimum-year row and `e` the maximum-year
row it selects, returns the two-point compound rate when the start value is
positive and exactly zero when the start value is non-positive. -/
theorem cagr_formula (df : List Row) (sy ey : ℤ) (s e : Row) (f : Field)
    (hs : start_year df = some sy) (he : end_year df = some ey)
    (hrs : rowAt (hist df) sy = some s) (hre : rowAt (hist df) ey = some e) :
    (0 < s.val f →
        cagr df f
          = some ((e.val f / s.val f) ^ ((1 : ℝ) / ((ey - sy : ℤ) : ℝ)) - 1))
    ∧ (s.val f ≤ 0 → cagr df f = some 0) := by
  simp only [cagr, hs, he, hrs, hre]
  constructor <;> intro h
  · simp [cagrField, h]
  · simp [cagrField, not_lt.mpr h]

/-- The earliest row of the history used to instantiate the growth-rate
formula: year 2020, every column 2. -/
noncomputable def rowG20 : Row := ⟨2020, fun _ => 2⟩

/-- The latest row of that history: year 2023, every column 16. -/
noncomputable def rowG23 : Row := ⟨2023, fun _ => 16⟩

/-- A concrete two-row history for the growth-rate formula. -/
noncomputable def dfC3 : List Row := [rowG20, rowG23]

/-- C3 witness: on the concrete two-row history the selection hypotheses
hold by computation and the formula follows. -/
theorem cagr_formula_witness :
    (0 < rowG20.val Field.Revenue →
        cagr dfC3 Field.Revenue
          = some ((rowG23.val Field.Revenue / rowG20.val Field.Revenue)
              ^ ((1 : ℝ) / ((((2023 : ℤ) - 2020 : ℤ)) : ℝ)) - 1))
    ∧ (rowG20.val Field.Revenue ≤ 0 → cagr dfC3 Field.Revenue = some 0) :=
  cagr_formula dfC3 2020 2023 rowG20 rowG23 Field.Revenue rfl rfl rfl rfl

/-- The 2020 row of the end-to-end projection history: revenue 1000. -/
noncomputable def rowP20 : Row :=
  ⟨2020, fun f => match f with | .Revenue => 1000 | _ => 1⟩

/-- The 2023 row of the end-to-end projection history: revenue 1331, an
exact 10 percent compound growth over the three years. -/
noncomputable def rowP23 : Row :=
  ⟨2023, fun f => match f with | .Revenue => 1331 | _ => 1⟩

/-- The history of the end-to-end revenue projection example. -/
noncomputable def dfC4 : List Row := [rowP20, rowP23]

/-- C4: the Baseline Projector multiplies the end-year value by the grown
factor raised to the distance from the end year to the fixed target 2025
(the cutoff 2023 is fixed inside `hist`), and on the 1000-to-1331 revenue
history it projects 1331 times 1.1 squared, that is 1610.51. -/
theorem base_proj_formula :
    (∀ (df : List Row) (ey : ℤ) (gr : ℝ) (e : Row) (f : Field),
        end_year df = some ey → cagr df f = some gr → rowAt df ey = some e →
        base_proj df f = some (e.val f * (1 + gr) ^ (2025 - ey)))
    ∧ base_proj dfC4 Field.Revenue = some (161051 / 100) := by
  constructor
  · intro df ey gr e f he hg hr
    simp only [base_proj, he, hg, hr]
  · have hpow : ((1331 : ℝ) / 1000) ^ ((1 : ℝ) / ((3 : ℤ) : ℝ)) = 11 / 10 := by
      rw [show ((1 : ℝ) / ((3 : ℤ) : ℝ)) = (((3 : ℕ) : ℝ))⁻¹ by norm_num]
      rw [show ((1331 : ℝ) / 1000) = (11 / 10 : ℝ) ^ (3 : ℕ) by norm_num]
      exact Real.pow_rpow_inv_natCast (by norm_num) (by norm_num)
    have hc : cagrField 1000 1331 3 = 11 / 10 - 1 := by
      unfold cagrField
      rw [if_pos (by norm_num : (1000 : ℝ) > 0), hpow]
    rw [show base_proj dfC4 Field.Revenue
        = some (1331 * (1 + cagrField 1000 1331 3) ^ ((2 : ℤ))) from rfl, hc]
    norm_num

/-- The single historical row of the degenerate one-year history. -/
noncomputable def row23single : Row := ⟨2023, fun _ => 1000⟩

/-- A history whose filtered subset holds a single distinct year, the
degenerate input the spec declares fatal. -/
noncomputable def dfC6 : List Row := [row23single]

/-- C6 evaluation: with a single distinct year at or before the cutoff the
pipeline produces a numeric result rather than failing - every growth rate
comes out zero (the start and end rows coincide, so the ratio is one and any
exponent of it is one) and the baseline projection equals the end-year
values. -/
theorem single_year_silently_defaults :
    (∀ f : Field, cagr dfC6 f = some 0)
    ∧ base_proj dfC6 Field.Revenue = some 1000 := by
  have hc : cagrField 1000 1000 0 = 0 := by
    unfold cagrField
    rw [if_pos (by norm_num : (1000 : ℝ) > 0)]
    rw [show ((1000 : ℝ) / 1000) = 1 by norm_num, Real.one_rpow]
    norm_num
  constructor
  · intro f
    rw [show cagr dfC6 f = some (cagrField 1000 1000 0) from rfl, hc]
  · rw [show base_proj dfC6 Field.Revenue
        = some (1000 * (1 + cagrField 1000 1000 0) ^ ((2 : ℤ))) from rfl, hc]
    norm_num

/-- C8: for positive endpoints and a positive year span, the extracted rate
satisfies the round-trip equation: compounding the start value by the rate
over the span recovers the end value exactly over the reals. -/
theorem cagr_round_trip (s e : ℝ) (n : ℤ) (hs : 0 < s) (he : 0 < e)
    (hn : 0 < n) :
    s * (1 + cagrField s e n) ^ n = e := by
  have hsne : s ≠ 0 := ne_of_gt hs
  have hnR : ((n : ℤ) : ℝ) ≠ 0 := Int.cast_ne_zero.mpr (ne_of_gt hn)
  have hx : (0 : ℝ) ≤ e / s := le_of_lt (div_pos he hs)
  have h1 : 1 + cagrField s e n = (e / s) ^ ((1 : ℝ) / (n : ℝ)) := by
    unfold cagrField
    rw [if_pos hs]
    ring
  rw [h1, ← Real.rpow_intCast ((e / s) ^ ((1 : ℝ) / (n : ℝ))) n,
    ← Real.rpow_mul hx,
    show (1 : ℝ) / ((n : ℤ) : ℝ) * ((n : ℤ) : ℝ) = 1 from by field_simp,
    Real.rpow_one]
  field_simp

/-- C8 witness: with start 1, end 2 and a one-year span the hypotheses hold
and the round trip recovers 2. -/
theorem cagr_round_trip_witness :
    (0 : ℝ) < 1 ∧ (0 : ℝ) < 2 ∧ (0 : ℤ) < 1
    ∧ 1 * (1 + cagrField 1 2 1) ^ ((1 : ℤ)) = 2 :=
  ⟨by norm_num, by norm_num, by norm_num,
    cagr_round_trip 1 2 1 (by norm_num) (by norm_num) (by norm_num)⟩

end Dashboard
